import Mathlib

/-!
Verification of `glfwDrawQuad` (src/projetoGLFW/main.cpp).

The program is embedded shallowly as a trace generator: every OpenGL / GLFW
call the program makes becomes an `Event`, and the functions of the source
(`processInput`, `frameBufferSize_callback`, `checkIfShaderRunSucessfully`,
`createVertexShader`, `createFragmentShader`,
`checkIfProgramWasCreatedSucessfully`, and `main`) become Lean functions
producing the list of events the corresponding C++ code issues.

Driver-dependent results (compile status, link status, info logs, handle
values returned by `glGen*` / `glCreate*`) are parameters: a `Driver`
structure and a `Handles` structure.  The render loop is driven by a
schedule `Nat → IterInput` giving, for each iteration, whether Escape is
observed pressed by `glfwGetKey`, which framebuffer-resize notification (if
any) is delivered during `glfwPollEvents`, and whether an external close
request (window manager) arrives during `glfwPollEvents`.  The loop takes a
fuel bound so that it is a total function; all theorems hold for every fuel.
-/

namespace GlfwDrawQuad

/-- GL buffer-binding targets used by the program. -/
inductive BufferTarget
  | arrayBuffer
  | elementArrayBuffer
deriving DecidableEq

/-- GL buffer usage hints used by the program (only `GL_STATIC_DRAW`). -/
inductive Usage
  | staticDraw
deriving DecidableEq

/-- GL shader stage kinds. -/
inductive ShaderType
  | vertexShader
  | fragmentShader
deriving DecidableEq

/-- GL primitive modes used by the program (only `GL_TRIANGLES`). -/
inductive PrimMode
  | triangles
deriving DecidableEq

/-- GL index-element types used by the program (only `GL_UNSIGNED_INT`). -/
inductive IndexType
  | unsignedInt
deriving DecidableEq

/-- GL vertex-attribute component types used by the program (only `GL_FLOAT`). -/
inductive AttrType
  | float
deriving DecidableEq

/-- Bit width of an index-element type: `GL_UNSIGNED_INT` is 32 bits. -/
def IndexType.bitWidth : IndexType → Nat
  | .unsignedInt => 32

/-- Byte size of an attribute component type: `GL_FLOAT` is 4 bytes. -/
def AttrType.byteSize : AttrType → Nat
  | .float => 4

/-- Bit width of an attribute component type: `GL_FLOAT` is 32 bits. -/
def AttrType.bitWidth : AttrType → Nat
  | .float => 32

def GL_COLOR_BUFFER_BIT : Nat := 0x4000
def GLFW_CONTEXT_VERSION_MAJOR : Nat := 0x22002
def GLFW_CONTEXT_VERSION_MINOR : Nat := 0x22003
def GLFW_OPENGL_PROFILE : Nat := 0x22008
def GLFW_OPENGL_CORE_PROFILE : Nat := 0x32001

/-- One API call issued by the program, with the arguments that matter
(handles, data, enums).  Calls that read results back (`glGetShaderiv`,
`glGetProgramiv`) record the value the driver returned. -/
inductive Event
  | glfwInit
  | glfwWindowHint (hint : Nat) (value : Nat)
  | glfwCreateWindow (width height : Nat) (title : String)
  | glfwSetFramebufferSizeCallback
  | glfwMakeContextCurrent
  | gladLoadGL
  | glViewport (x y width height : Int)
  | glGenVertexArrays (n : Nat) (handle : Nat)
  | glGenBuffers (n : Nat) (handle : Nat)
  | glBindVertexArray (vao : Nat)
  | glBindBuffer (target : BufferTarget) (buffer : Nat)
  | glBufferDataFloats (target : BufferTarget) (byteSize : Nat) (data : List ℚ) (usage : Usage)
  | glBufferDataUInts (target : BufferTarget) (byteSize : Nat) (data : List Nat) (usage : Usage)
  | glCreateShader (ty : ShaderType) (handle : Nat)
  | glShaderSource (shader : Nat) (count : Nat) (source : String)
  | glCompileShader (shader : Nat)
  | glGetShaderiv (shader : Nat) (status : Bool)
  | glGetShaderInfoLog (shader : Nat) (maxLen : Nat)
  | coutLine (msg : String)
  | glCreateProgram (handle : Nat)
  | glAttachShader (program shader : Nat)
  | glLinkProgram (program : Nat)
  | glGetProgramiv (program : Nat) (status : Bool)
  | glGetProgramInfoLog (program : Nat) (maxLen : Nat)
  | glDeleteShader (shader : Nat)
  | glGetAttribLocation (program : Nat) (attrName : String)
  | glVertexAttribPointer (index size : Nat) (ty : AttrType) (normalized : Bool)
      (stride : Nat) (offset : Nat)
  | glEnableVertexAttribArray (index : Nat)
  | glClearColor (r g b a : ℚ)
  | glClear (mask : Nat)
  | glUseProgram (program : Nat)
  | glDrawElements (mode : PrimMode) (count : Nat) (ty : IndexType) (offset : Nat)
  | glfwSetWindowShouldClose (value : Bool)
  | glfwSwapBuffers
  | glfwPollEvents
  | glDeleteVertexArrays (n : Nat) (handle : Nat)
  | glDeleteBuffers (n : Nat) (handle : Nat)
  | glDeleteProgram (handle : Nat)
  | glfwTerminate
deriving DecidableEq

/-- `float triangleVertices[] = { 0.5,0.5,0, 0.5,-0.5,0, -0.5,-0.5,0, -0.5,0.5,0 }`
(main.cpp lines 16-21), flat as in the source. -/
def triangleVertices : List ℚ :=
  [ 1/2,  1/2, 0,
    1/2, -1/2, 0,
   -1/2, -1/2, 0,
   -1/2,  1/2, 0]

/-- `unsigned int indices[] = { 0, 1, 3, 1, 2, 3 }` (main.cpp lines 22-25). -/
def indices : List Nat := [0, 1, 3, 1, 2, 3]

/-- Group a flat float list into 3-component vertex positions. -/
def toVec3s : List ℚ → List (ℚ × ℚ × ℚ)
  | x :: y :: z :: rest => (x, y, z) :: toVec3s rest
  | _ => []

/-- The vertex-shader GLSL source (main.cpp lines 54-59). -/
def vertexSource : String :=
  "#version 330 core\nlayout (location = 0) in vec3 aPos;\nvoid main()\n\x7b\n   gl_Position = vec4(aPos, 1.0);\n\x7d"

/-- The fragment-shader GLSL source (main.cpp lines 69-74). -/
def fragmentSource : String :=
  "#version 330 core\nout vec4 FragColor;\nvoid main()\n\x7b\n   FragColor = vec4(1.0f, 0.5f, 0.2f, 1.0f);\n\x7d"

/-- Driver model: the results the GL driver reports for compile / link
status queries and info logs, per object handle. -/
structure Driver where
  compileStatus : Nat → Bool
  shaderInfoLog : Nat → String
  linkStatus : Nat → Bool
  programInfoLog : Nat → String

/-- The handle values the driver hands out for the objects the program
creates (one VAO, one VBO, one EBO, two shader stages, one program). -/
structure Handles where
  VAO : Nat
  VBO : Nat
  EBO : Nat
  vertexShader : Nat
  fragmentShader : Nat
  shaderProgram : Nat

/-- `checkIfShaderRunSucessfully` (main.cpp lines 27-37): query
`GL_COMPILE_STATUS`; on failure fetch the info log and print
`ERROR::SHADER::VERTEX::COMPILATION_FAILED` followed by the log.  Note the
printed stage identifier is the literal `VERTEX` regardless of which stage
the shader object is. -/
def checkIfShaderRunSucessfully (D : Driver) (shader : Nat) : List Event :=
  let success := D.compileStatus shader
  Event.glGetShaderiv shader success ::
    (if success then []
     else [Event.glGetShaderInfoLog shader 512,
           Event.coutLine ("ERROR::SHADER::VERTEX::COMPILATION_FAILED\n"
             ++ D.shaderInfoLog shader ++ "\n")])

/-- `checkIfProgramWasCreatedSucessfully` (main.cpp lines 39-49). -/
def checkIfProgramWasCreatedSucessfully (D : Driver) (shaderProgram : Nat) : List Event :=
  let success := D.linkStatus shaderProgram
  Event.glGetProgramiv shaderProgram success ::
    (if success then []
     else [Event.glGetProgramInfoLog shaderProgram 512,
           Event.coutLine ("\n(Shader PROGRAM Error.) ERROR::SHADER::VERTEX::COMPILATION_FAILED\n"
             ++ D.programInfoLog shaderProgram ++ "\n")])

/-- `createVertexShader` (main.cpp lines 52-65). -/
def createVertexShader (D : Driver) (vertexShader : Nat) : List Event :=
  [Event.glShaderSource vertexShader 1 vertexSource,
   Event.glCompileShader vertexShader]
  ++ checkIfShaderRunSucessfully D vertexShader

/-- `createFragmentShader` (main.cpp lines 67-80). -/
def createFragmentShader (D : Driver) (fragmentShader : Nat) : List Event :=
  [Event.glShaderSource fragmentShader 1 fragmentSource,
   Event.glCompileShader fragmentShader]
  ++ checkIfShaderRunSucessfully D fragmentShader

/-- `frameBufferSize_callback` (main.cpp lines 12-14): the resize handler
sets the viewport to origin (0,0) with the notified width and height. -/
def frameBufferSize_callback (width height : Int) : List Event :=
  [Event.glViewport 0 0 width height]

/-- GLFW window state visible to the program: the should-close flag. -/
structure WindowState where
  shouldClose : Bool
deriving DecidableEq

/-- External inputs consumed by one loop iteration: whether `glfwGetKey`
reports Escape pressed, which resize notification (if any) is delivered
during `glfwPollEvents`, and whether the window manager requests close
during `glfwPollEvents`. -/
structure IterInput where
  escPressed : Bool
  resizeEvent : Option (Int × Int)
  externalClose : Bool

/-- `processInput` (main.cpp lines 6-10): if Escape is pressed, call
`glfwSetWindowShouldClose(window, true)`. -/
def processInput (escPressed : Bool) (s : WindowState) : WindowState × List Event :=
  if escPressed then ({ shouldClose := true }, [Event.glfwSetWindowShouldClose true])
  else (s, [])

/-- `glfwPollEvents` (main.cpp line 189): dispatches pending events; a
pending resize notification runs `frameBufferSize_callback`, and an
external close request sets the should-close flag. -/
def glfwPollEventsStep (inp : IterInput) (s : WindowState) : WindowState × List Event :=
  ({ shouldClose := s.shouldClose || inp.externalClose },
   Event.glfwPollEvents ::
     (match inp.resizeEvent with
      | some (w, h) => frameBufferSize_callback w h
      | none => []))

/-- The render-core part of the loop body (main.cpp lines 177-186): clear
to the fixed color, activate the program, bind the VAO, draw 6 indices as
triangles, unbind the VAO. -/
def renderFrame (H : Handles) : List Event :=
  [Event.glClearColor (2/10) (3/10) (3/10) 1,
   Event.glClear GL_COLOR_BUFFER_BIT,
   Event.glUseProgram H.shaderProgram,
   Event.glBindVertexArray H.VAO,
   Event.glDrawElements PrimMode.triangles 6 IndexType.unsignedInt 0,
   Event.glBindVertexArray 0]

/-- One full iteration of the `while (!glfwWindowShouldClose(window))` body
(main.cpp lines 174-190): `processInput`, the render step, `glfwSwapBuffers`,
`glfwPollEvents`. -/
def loopBody (H : Handles) (inp : IterInput) (s : WindowState) : WindowState × List Event :=
  let p := processInput inp.escPressed s
  let q := glfwPollEventsStep inp p.1
  (q.1, p.2 ++ renderFrame H ++ [Event.glfwSwapBuffers] ++ q.2)

/-- The render loop (main.cpp lines 174-190): while the should-close flag
is not set, run the loop body.  `fuel` bounds the number of iterations so
the function is total; the first `Nat` argument is the iteration index used
to consult the schedule. -/
def renderLoop (H : Handles) (sched : Nat → IterInput) :
    Nat → Nat → WindowState → List Event × WindowState
  | _, 0, s => ([], s)
  | i, fuel + 1, s =>
    if s.shouldClose then ([], s)
    else
      let p := loopBody H (sched i) s
      let q := renderLoop H sched (i + 1) fuel p.1
      (p.2 ++ q.1, q.2)

/-- The one-time resource setup (main.cpp lines 111-171): VAO, VBO with the
vertex data, EBO with the index data, both shader stages, the linked
program, stage deletion, and the attribute binding for slot 0. -/
def initResources (H : Handles) (D : Driver) : List Event :=
  [Event.glGenVertexArrays 1 H.VAO,
   Event.glBindVertexArray H.VAO,
   Event.glGenBuffers 1 H.VBO,
   Event.glBindBuffer BufferTarget.arrayBuffer H.VBO,
   Event.glBufferDataFloats BufferTarget.arrayBuffer (4 * triangleVertices.length)
     triangleVertices Usage.staticDraw,
   Event.glGenBuffers 1 H.EBO,
   Event.glBindBuffer BufferTarget.elementArrayBuffer H.EBO,
   Event.glBufferDataUInts BufferTarget.elementArrayBuffer (4 * indices.length)
     indices Usage.staticDraw,
   Event.glCreateShader ShaderType.vertexShader H.vertexShader,
   Event.glCreateShader ShaderType.fragmentShader H.fragmentShader]
  ++ createVertexShader D H.vertexShader
  ++ createFragmentShader D H.fragmentShader
  ++ [Event.glCreateProgram H.shaderProgram,
      Event.glAttachShader H.shaderProgram H.vertexShader,
      Event.glAttachShader H.shaderProgram H.fragmentShader,
      Event.glLinkProgram H.shaderProgram]
  ++ checkIfProgramWasCreatedSucessfully D H.shaderProgram
  ++ [Event.glDeleteShader H.vertexShader,
      Event.glDeleteShader H.fragmentShader,
      Event.glGetAttribLocation H.shaderProgram "aPos",
      Event.glVertexAttribPointer 0 3 AttrType.float false (3 * 4) 0,
      Event.glEnableVertexAttribArray 0]

/-- The shutdown sequence (main.cpp lines 192-195): delete the VAO, the two
buffers, and the program. -/
def releaseResources (H : Handles) : List Event :=
  [Event.glDeleteVertexArrays 1 H.VAO,
   Event.glDeleteBuffers 1 H.VBO,
   Event.glDeleteBuffers 1 H.EBO,
   Event.glDeleteProgram H.shaderProgram]

/-- The whole-run environment: whether `glfwCreateWindow` succeeds, the
driver model, and the per-iteration input schedule. -/
structure Env where
  windowOk : Bool
  driver : Driver
  sched : Nat → IterInput

/-- The init + hint calls made before window creation (main.cpp lines 84-87). -/
def setupHints : List Event :=
  [Event.glfwInit,
   Event.glfwWindowHint GLFW_CONTEXT_VERSION_MAJOR 3,
   Event.glfwWindowHint GLFW_CONTEXT_VERSION_MINOR 3,
   Event.glfwWindowHint GLFW_OPENGL_PROFILE GLFW_OPENGL_CORE_PROFILE]

/-- `main` (main.cpp lines 83-198): the full run, returning the event trace
and the process exit status.  If `glfwCreateWindow` fails the program logs,
terminates GLFW and returns -1; otherwise it sets up resources, runs the
render loop, releases the resources, terminates GLFW and returns 0. -/
def main (H : Handles) (env : Env) (fuel : Nat) : List Event × Int :=
  if env.windowOk then
    (setupHints
      ++ [Event.glfwCreateWindow 800 600 "Aprendendo OpenGL/GLFW",
          Event.glfwSetFramebufferSizeCallback,
          Event.glfwMakeContextCurrent,
          Event.gladLoadGL]
      ++ initResources H env.driver
      ++ (renderLoop H env.sched 0 fuel { shouldClose := false }).1
      ++ releaseResources H
      ++ [Event.glfwTerminate], 0)
  else
    (setupHints
      ++ [Event.glfwCreateWindow 800 600 "Aprendendo OpenGL/GLFW",
          Event.coutLine "Failed to create GLFW window",
          Event.glfwTerminate], -1)

/-- Creation calls for the four persistent resource kinds of the data model
(vertex-array object, buffers, shader program). -/
def Event.isCreationCall : Event → Bool
  | .glGenVertexArrays _ _ => true
  | .glGenBuffers _ _ => true
  | .glCreateProgram _ => true
  | _ => false

/-- Any GPU object-handle creation call, the transient shader-stage objects
included. -/
def Event.isHandleCreation : Event → Bool
  | .glGenVertexArrays _ _ => true
  | .glGenBuffers _ _ => true
  | .glCreateProgram _ => true
  | .glCreateShader _ _ => true
  | _ => false

/-- Draw calls. -/
def Event.isDraw : Event → Bool
  | .glDrawElements _ _ _ _ => true
  | _ => false

/-- Release calls for the four persistent resource kinds. -/
def Event.isRelease : Event → Bool
  | .glDeleteVertexArrays _ _ => true
  | .glDeleteBuffers _ _ => true
  | .glDeleteProgram _ => true
  | _ => false

/-- Window / surface creation calls. -/
def Event.isCreateWindow : Event → Bool
  | .glfwCreateWindow _ _ _ => true
  | _ => false

/-- Close-request events. -/
def Event.isSetClose : Event → Bool
  | .glfwSetWindowShouldClose _ => true
  | _ => false

/-- Diagnostic lines written to the log stream. -/
def coutMessages (evs : List Event) : List String :=
  evs.filterMap fun e =>
    match e with
    | Event.coutLine m => some m
    | _ => none

/-- Substring test used to state which stage identifier a diagnostic names. -/
def hasSubstr (s pat : String) : Bool :=
  (List.range (s.length + 1)).any fun i => pat.data.isPrefixOf (s.data.drop i)

/-- A concrete handle assignment for witness scenarios. -/
def Hc : Handles :=
  { VAO := 1, VBO := 2, EBO := 3, vertexShader := 4, fragmentShader := 5, shaderProgram := 6 }

/-- A concrete driver on which every compile and link succeeds. -/
def okDriver : Driver :=
  { compileStatus := fun _ => true
    shaderInfoLog := fun _ => ""
    linkStatus := fun _ => true
    programInfoLog := fun _ => "" }

/-- A concrete driver on which the fragment shader (handle 5 under `Hc`)
fails to compile and everything else succeeds. -/
def fragFailDriver : Driver :=
  { compileStatus := fun sh => decide (sh ≠ 5)
    shaderInfoLog := fun _ => "0(4) : error C0000: syntax error unexpected token"
    linkStatus := fun _ => true
    programInfoLog := fun _ => "" }

/-- Schedule: Escape held from the start, no resize, no external close. -/
def escSchedC : Nat → IterInput :=
  fun _ => { escPressed := true, resizeEvent := none, externalClose := false }

/-- Schedule: Escape first observed pressed at iteration 1. -/
def schedOne : Nat → IterInput :=
  fun k => { escPressed := decide (k = 1), resizeEvent := none, externalClose := false }

/-- Schedule: one resize notification (w,h) delivered during the poll of
iteration 0; Escape never pressed, no external close. -/
def resizeSched (w h : Int) : Nat → IterInput :=
  fun k => { escPressed := false,
             resizeEvent := if k = 0 then some (w, h) else none,
             externalClose := false }

/-! ### Helper lemmas -/

/-- Once the should-close flag is set, the loop-continuation predicate is
false and the loop produces no further events, whatever the remaining fuel. -/
theorem renderLoop_closed (H : Handles) (sched : Nat → IterInput) (i fuel : Nat)
    (s : WindowState) (h : s.shouldClose = true) :
    renderLoop H sched i fuel s = ([], s) := by
  cases fuel <;> simp [renderLoop, h]

/-- Every event of `checkIfShaderRunSucessfully` is a status query, an
info-log fetch, or a diagnostic line. -/
theorem mem_checkShader (D : Driver) (sh : Nat) (e : Event)
    (he : e ∈ checkIfShaderRunSucessfully D sh) :
    (∃ b, e = Event.glGetShaderiv sh b)
    ∨ e = Event.glGetShaderInfoLog sh 512
    ∨ (∃ m, e = Event.coutLine m) := by
  unfold checkIfShaderRunSucessfully at he
  cases hc : D.compileStatus sh <;> simp [hc] at he
  · rcases he with he | he | he
    · exact Or.inl ⟨false, he⟩
    · exact Or.inr (Or.inl he)
    · exact Or.inr (Or.inr ⟨_, he⟩)
  · exact Or.inl ⟨true, he⟩

/-- Every event of `checkIfProgramWasCreatedSucessfully` is a status query,
an info-log fetch, or a diagnostic line. -/
theorem mem_checkProgram (D : Driver) (p : Nat) (e : Event)
    (he : e ∈ checkIfProgramWasCreatedSucessfully D p) :
    (∃ b, e = Event.glGetProgramiv p b)
    ∨ e = Event.glGetProgramInfoLog p 512
    ∨ (∃ m, e = Event.coutLine m) := by
  unfold checkIfProgramWasCreatedSucessfully at he
  cases hc : D.linkStatus p <;> simp [hc] at he
  · rcases he with he | he | he
    · exact Or.inl ⟨false, he⟩
    · exact Or.inr (Or.inl he)
    · exact Or.inr (Or.inr ⟨_, he⟩)
  · exact Or.inl ⟨true, he⟩

/-- Every event emitted by one loop iteration is one of the fixed per-frame
calls (close request, the six render-step calls, swap, poll, viewport). -/
theorem mem_loopBody (H : Handles) (inp : IterInput) (s : WindowState) (e : Event)
    (he : e ∈ (loopBody H inp s).2) :
    e = Event.glfwSetWindowShouldClose true
    ∨ e = Event.glClearColor (2/10) (3/10) (3/10) 1
    ∨ e = Event.glClear GL_COLOR_BUFFER_BIT
    ∨ e = Event.glUseProgram H.shaderProgram
    ∨ e = Event.glBindVertexArray H.VAO
    ∨ e = Event.glDrawElements PrimMode.triangles 6 IndexType.unsignedInt 0
    ∨ e = Event.glBindVertexArray 0
    ∨ e = Event.glfwSwapBuffers
    ∨ e = Event.glfwPollEvents
    ∨ (∃ w h, e = Event.glViewport 0 0 w h) := by
  rcases inp with ⟨esc, rz, ext⟩
  unfold loopBody processInput glfwPollEventsStep renderFrame frameBufferSize_callback at he
  cases esc <;> rcases rz with _ | ⟨w, h⟩ <;> simp_all <;> tauto

/-- If a predicate rejects every event any iteration can emit, the filtered
loop trace is empty for every schedule, index, fuel and start state. -/
theorem renderLoop_filter_eq_nil (p : Event → Bool)
    (hp : ∀ (H : Handles) (inp : IterInput) (s : WindowState),
      ((loopBody H inp s).2).filter p = [])
    (H : Handles) (sched : Nat → IterInput) (i fuel : Nat) (s : WindowState) :
    ((renderLoop H sched i fuel s).1).filter p = [] := by
  induction fuel generalizing i s with
  | zero => simp [renderLoop]
  | succ n ih =>
    by_cases h : s.shouldClose
    · simp [renderLoop, h]
    · simp [renderLoop, h, List.filter_append, hp, ih]

/-- No loop iteration creates any GPU object handle. -/
theorem loopBody_filter_handleCreation (H : Handles) (inp : IterInput) (s : WindowState) :
    ((loopBody H inp s).2).filter Event.isHandleCreation = [] := by
  rw [List.filter_eq_nil_iff]
  intro e he
  rcases mem_loopBody H inp s e he with h|h|h|h|h|h|h|h|h|⟨w, hh, h⟩ <;>
    subst h <;> simp [Event.isHandleCreation]

/-- No loop iteration releases any of the four persistent resources. -/
theorem loopBody_filter_release (H : Handles) (inp : IterInput) (s : WindowState) :
    ((loopBody H inp s).2).filter Event.isRelease = [] := by
  rw [List.filter_eq_nil_iff]
  intro e he
  rcases mem_loopBody H inp s e he with h|h|h|h|h|h|h|h|h|⟨w, hh, h⟩ <;>
    subst h <;> simp [Event.isRelease]

/-- No loop iteration creates a window. -/
theorem loopBody_filter_createWindow (H : Handles) (inp : IterInput) (s : WindowState) :
    ((loopBody H inp s).2).filter Event.isCreateWindow = [] := by
  rw [List.filter_eq_nil_iff]
  intro e he
  rcases mem_loopBody H inp s e he with h|h|h|h|h|h|h|h|h|⟨w, hh, h⟩ <;>
    subst h <;> simp [Event.isCreateWindow]

/-- The shader-compile check never emits creation, release, window-creation
or draw events: filter form, for any predicate rejecting queries and logs. -/
theorem checkShader_filter_eq_nil (p : Event → Bool) (D : Driver) (sh : Nat)
    (h1 : ∀ b, p (Event.glGetShaderiv sh b) = false)
    (h2 : p (Event.glGetShaderInfoLog sh 512) = false)
    (h3 : ∀ m, p (Event.coutLine m) = false) :
    (checkIfShaderRunSucessfully D sh).filter p = [] := by
  rw [List.filter_eq_nil_iff]
  intro e he
  rcases mem_checkShader D sh e he with ⟨b, h⟩ | h | ⟨m, h⟩
  · subst h; simp [h1 b]
  · subst h; simp [h2]
  · subst h; simp [h3 m]

/-- Same for the program-link check. -/
theorem checkProgram_filter_eq_nil (p : Event → Bool) (D : Driver) (pr : Nat)
    (h1 : ∀ b, p (Event.glGetProgramiv pr b) = false)
    (h2 : p (Event.glGetProgramInfoLog pr 512) = false)
    (h3 : ∀ m, p (Event.coutLine m) = false) :
    (checkIfProgramWasCreatedSucessfully D pr).filter p = [] := by
  rw [List.filter_eq_nil_iff]
  intro e he
  rcases mem_checkProgram D pr e he with ⟨b, h⟩ | h | ⟨m, h⟩
  · subst h; simp [h1 b]
  · subst h; simp [h2]
  · subst h; simp [h3 m]

/-- No loop iteration performs a creation call of the four persistent
resource kinds. -/
theorem loopBody_filter_creation (H : Handles) (inp : IterInput) (s : WindowState) :
    ((loopBody H inp s).2).filter Event.isCreationCall = [] := by
  rw [List.filter_eq_nil_iff]
  intro e he
  rcases mem_loopBody H inp s e he with h|h|h|h|h|h|h|h|h|⟨w, hh, h⟩ <;>
    subst h <;> simp [Event.isCreationCall]

/-- An iteration whose input has Escape not pressed emits no close-request
event. -/
theorem loopBody_countP_setClose_of_not_esc (H : Handles) (inp : IterInput)
    (s : WindowState) (h : inp.escPressed = false) :
    ((loopBody H inp s).2).countP Event.isSetClose = 0 := by
  rcases inp with ⟨esc, rz, ext⟩
  cases h
  rcases rz with _ | ⟨w, hh⟩ <;>
    simp [loopBody, processInput, glfwPollEventsStep, renderFrame,
      frameBufferSize_callback, Event.isSetClose, List.countP_cons]

/-! ### Claim theorems -/

/-- Claim C1 (the code evaluated at the failing input): on a driver that
rejects the fragment-shader compilation, the queried compile-status flag is
false and a diagnostic line is written, and the process does not terminate
(the run still reaches `glfwTerminate` and exits with status 0) — but the
diagnostic identifies the VERTEX stage, not the fragment stage: the single
log line of the fragment-stage check contains the substring "VERTEX" and
does not contain the substring "FRAGMENT". -/
theorem c1_fragment_failure_diagnostic_names_vertex_stage :
    Event.glGetShaderiv 5 false ∈ createFragmentShader fragFailDriver 5
    ∧ coutMessages (createFragmentShader fragFailDriver 5)
        = ["ERROR::SHADER::VERTEX::COMPILATION_FAILED\n0(4) : error C0000: syntax error unexpected token\n"]
    ∧ hasSubstr
        "ERROR::SHADER::VERTEX::COMPILATION_FAILED\n0(4) : error C0000: syntax error unexpected token\n"
        "VERTEX" = true
    ∧ hasSubstr
        "ERROR::SHADER::VERTEX::COMPILATION_FAILED\n0(4) : error C0000: syntax error unexpected token\n"
        "FRAGMENT" = false
    ∧ (main Hc { windowOk := true, driver := fragFailDriver, sched := escSchedC } 1).2 = 0
    ∧ Event.glfwTerminate
        ∈ (main Hc { windowOk := true, driver := fragFailDriver, sched := escSchedC } 1).1 := by
  refine ⟨by decide, by decide, by decide, by decide, rfl, by decide⟩

/-- Claim C2: every iteration of the render loop performs exactly the fixed
render-step sequence — clear to the constant color (0.2, 0.3, 0.3, 1.0),
activate the linked program, bind the vertex-array object, issue one indexed
draw of 6 indices of 32-bit unsigned type as independent triangles, unbind
the vertex-array object — between the input check and the buffer swap,
identically for every window state, schedule entry and handle assignment
(hence with no branching and no other GPU call inside the step). -/
theorem c2_frame_render_step_fixed_sequence (H : Handles) (inp : IterInput) (s : WindowState) :
    (loopBody H inp s).2
      = (processInput inp.escPressed s).2
        ++ ([Event.glClearColor (2/10) (3/10) (3/10) 1,
             Event.glClear GL_COLOR_BUFFER_BIT,
             Event.glUseProgram H.shaderProgram,
             Event.glBindVertexArray H.VAO,
             Event.glDrawElements PrimMode.triangles 6 IndexType.unsignedInt 0,
             Event.glBindVertexArray 0]
            ++ [Event.glfwSwapBuffers]
            ++ (glfwPollEventsStep inp (processInput inp.escPressed s).1).2)
    ∧ IndexType.bitWidth IndexType.unsignedInt = 32
    ∧ GL_COLOR_BUFFER_BIT = 0x4000 := by
  refine ⟨?_, rfl, rfl⟩
  simp [loopBody, renderFrame]

/-- Claim C3: the uploaded vertex buffer holds exactly the 4 positions
(0.5,0.5), (0.5,-0.5), (-0.5,-0.5), (-0.5,0.5), each with a third
coordinate, not 6 positions; the uploaded index buffer is exactly
{0,1,3,1,2,3}; the two triangles share exactly vertices 1 and 3; no vertex
position is duplicated in the vertex buffer; and `initResources` uploads
exactly these two arrays to the array buffer and the element-array buffer. -/
theorem c3_quad_geometry (H : Handles) (D : Driver) :
    toVec3s triangleVertices
      = [(1/2, 1/2, 0), (1/2, -1/2, 0), (-1/2, -1/2, 0), (-1/2, 1/2, 0)]
    ∧ (toVec3s triangleVertices).length = 4
    ∧ (toVec3s triangleVertices).Nodup
    ∧ indices = [0, 1, 3, 1, 2, 3]
    ∧ indices.take 3 = [0, 1, 3]
    ∧ indices.drop 3 = [1, 2, 3]
    ∧ (indices.take 3).inter (indices.drop 3) = [1, 3]
    ∧ Event.glBufferDataFloats BufferTarget.arrayBuffer (4 * triangleVertices.length)
        triangleVertices Usage.staticDraw ∈ initResources H D
    ∧ Event.glBufferDataUInts BufferTarget.elementArrayBuffer (4 * indices.length)
        indices Usage.staticDraw ∈ initResources H D := by
  refine ⟨rfl, rfl, ?_, rfl, by decide, by decide, by decide, ?_, ?_⟩
  · show ([(1/2, 1/2, 0), (1/2, -1/2, 0), (-1/2, -1/2, 0), (-1/2, 1/2, 0)] :
      List (ℚ × ℚ × ℚ)).Nodup
    norm_num [List.nodup_cons, Prod.ext_iff]
  · simp [initResources]
  · simp [initResources]

/-- Claim C4: the resize handler sets the viewport to exactly origin (0,0)
with the notified width and height, and a resize notification delivered
during the event poll of one iteration takes effect before the next frame's
draw call: in the loop trace, the `glViewport 0 0 w h` call appears before
the following iteration's `glDrawElements`, with no draw call in between. -/
theorem c4_resize_sets_viewport_before_next_frame (H : Handles) (w h : Int) :
    frameBufferSize_callback w h = [Event.glViewport 0 0 w h]
    ∧ ∃ l₁ l₂ l₃,
        (renderLoop H (resizeSched w h) 0 2 { shouldClose := false }).1
          = l₁ ++ [Event.glViewport 0 0 w h] ++ l₂
              ++ [Event.glDrawElements PrimMode.triangles 6 IndexType.unsignedInt 0] ++ l₃
        ∧ l₂.filter Event.isDraw = [] := by
  refine ⟨rfl,
    renderFrame H ++ [Event.glfwSwapBuffers, Event.glfwPollEvents],
    [Event.glClearColor (2/10) (3/10) (3/10) 1,
     Event.glClear GL_COLOR_BUFFER_BIT,
     Event.glUseProgram H.shaderProgram,
     Event.glBindVertexArray H.VAO],
    [Event.glBindVertexArray 0, Event.glfwSwapBuffers, Event.glfwPollEvents],
    ?_, rfl⟩
  simp [renderLoop, loopBody, processInput, glfwPollEventsStep, renderFrame,
    frameBufferSize_callback, resizeSched]

/-- Claim C5: over a whole run (any fuel, any schedule, any driver), the
creation calls for the four persistent resource kinds are exactly one
vertex-array object, one vertex buffer, one index buffer and one shader
program — 4 calls in total — and no iteration of the render loop performs
any GPU object-handle creation call at all (the transient shader-stage
objects included). -/
theorem c5_exactly_four_creation_calls (H : Handles) (D : Driver)
    (sched : Nat → IterInput) (fuel : Nat) :
    ((main H { windowOk := true, driver := D, sched := sched } fuel).1).filter
        Event.isCreationCall
      = [Event.glGenVertexArrays 1 H.VAO,
         Event.glGenBuffers 1 H.VBO,
         Event.glGenBuffers 1 H.EBO,
         Event.glCreateProgram H.shaderProgram]
    ∧ ((renderLoop H sched 0 fuel { shouldClose := false }).1).filter
        Event.isHandleCreation = [] := by
  constructor
  · simp [main, setupHints, initResources, createVertexShader, createFragmentShader,
      releaseResources, List.filter_append, Event.isCreationCall,
      checkShader_filter_eq_nil Event.isCreationCall D H.vertexShader
        (fun b => rfl) rfl (fun m => rfl),
      checkShader_filter_eq_nil Event.isCreationCall D H.fragmentShader
        (fun b => rfl) rfl (fun m => rfl),
      checkProgram_filter_eq_nil Event.isCreationCall D H.shaderProgram
        (fun b => rfl) rfl (fun m => rfl),
      renderLoop_filter_eq_nil Event.isCreationCall loopBody_filter_creation
        H sched 0 fuel { shouldClose := false }]
  · exact renderLoop_filter_eq_nil Event.isHandleCreation loopBody_filter_handleCreation
      H sched 0 fuel { shouldClose := false }

/-- Claim C6: the process exits with status 0 exactly when window creation
succeeds (normal close), with the non-zero status -1 exactly when creation
of the host window fails, and window creation is attempted exactly once per
run (the failure is not retried). -/
theorem c6_exit_status (H : Handles) (env : Env) (fuel : Nat) :
    ((main H env fuel).2 = 0 ↔ env.windowOk = true)
    ∧ ((main H env fuel).2 ≠ 0 ↔ env.windowOk = false)
    ∧ (env.windowOk = false → (main H env fuel).2 = -1)
    ∧ ((main H env fuel).1).countP Event.isCreateWindow = 1 := by
  obtain ⟨wOk, D, sched⟩ := env
  cases wOk
  · refine ⟨by simp [main], by simp [main], fun _ => by simp [main], ?_⟩
    simp [main, setupHints, List.countP_cons, Event.isCreateWindow]
  · refine ⟨by simp [main], by simp [main], by simp, ?_⟩
    have hloop : ((renderLoop H sched 0 fuel { shouldClose := false }).1).countP
        Event.isCreateWindow = 0 := by
      rw [List.countP_eq_length_filter,
        renderLoop_filter_eq_nil Event.isCreateWindow loopBody_filter_createWindow
          H sched 0 fuel { shouldClose := false }]
      rfl
    have hvs : (checkIfShaderRunSucessfully D H.vertexShader).countP
        Event.isCreateWindow = 0 := by
      rw [List.countP_eq_length_filter,
        checkShader_filter_eq_nil Event.isCreateWindow D H.vertexShader
          (fun b => rfl) rfl (fun m => rfl)]
      rfl
    have hfs : (checkIfShaderRunSucessfully D H.fragmentShader).countP
        Event.isCreateWindow = 0 := by
      rw [List.countP_eq_length_filter,
        checkShader_filter_eq_nil Event.isCreateWindow D H.fragmentShader
          (fun b => rfl) rfl (fun m => rfl)]
      rfl
    have hpr : (checkIfProgramWasCreatedSucessfully D H.shaderProgram).countP
        Event.isCreateWindow = 0 := by
      rw [List.countP_eq_length_filter,
        checkProgram_filter_eq_nil Event.isCreateWindow D H.shaderProgram
          (fun b => rfl) rfl (fun m => rfl)]
      rfl
    simp [main, setupHints, initResources, createVertexShader, createFragmentShader,
      releaseResources, List.countP_append, List.countP_cons, Event.isCreateWindow,
      hloop, hvs, hfs, hpr]

/-- Claim C7: the attribute binding configured at startup assigns slot 0 to
read 3 consecutive 32-bit (4-byte) floats per vertex with stride 3 floats
(12 bytes), zero offset and no normalization, and slot 0 is enabled before
any draw call is issued: in the whole-run trace the two configuration calls
appear with no draw call anywhere before them. -/
theorem c7_attribute_binding_before_first_draw (H : Handles) (D : Driver)
    (sched : Nat → IterInput) (fuel : Nat) :
    ∃ l₁ l₂,
      (main H { windowOk := true, driver := D, sched := sched } fuel).1
        = l₁ ++ [Event.glVertexAttribPointer 0 3 AttrType.float false (3 * 4) 0,
                 Event.glEnableVertexAttribArray 0] ++ l₂
      ∧ l₁.filter Event.isDraw = []
      ∧ AttrType.byteSize AttrType.float = 4
      ∧ AttrType.bitWidth AttrType.float = 32 := by
  refine ⟨setupHints
    ++ [Event.glfwCreateWindow 800 600 "Aprendendo OpenGL/GLFW",
        Event.glfwSetFramebufferSizeCallback,
        Event.glfwMakeContextCurrent,
        Event.gladLoadGL]
    ++ ([Event.glGenVertexArrays 1 H.VAO,
         Event.glBindVertexArray H.VAO,
         Event.glGenBuffers 1 H.VBO,
         Event.glBindBuffer BufferTarget.arrayBuffer H.VBO,
         Event.glBufferDataFloats BufferTarget.arrayBuffer (4 * triangleVertices.length)
           triangleVertices Usage.staticDraw,
         Event.glGenBuffers 1 H.EBO,
         Event.glBindBuffer BufferTarget.elementArrayBuffer H.EBO,
         Event.glBufferDataUInts BufferTarget.elementArrayBuffer (4 * indices.length)
           indices Usage.staticDraw,
         Event.glCreateShader ShaderType.vertexShader H.vertexShader,
         Event.glCreateShader ShaderType.fragmentShader H.fragmentShader]
        ++ createVertexShader D H.vertexShader
        ++ createFragmentShader D H.fragmentShader
        ++ [Event.glCreateProgram H.shaderProgram,
            Event.glAttachShader H.shaderProgram H.vertexShader,
            Event.glAttachShader H.shaderProgram H.fragmentShader,
            Event.glLinkProgram H.shaderProgram]
        ++ checkIfProgramWasCreatedSucessfully D H.shaderProgram
        ++ [Event.glDeleteShader H.vertexShader,
            Event.glDeleteShader H.fragmentShader,
            Event.glGetAttribLocation H.shaderProgram "aPos"]),
    (renderLoop H sched 0 fuel { shouldClose := false }).1
      ++ releaseResources H ++ [Event.glfwTerminate], ?_, ?_, rfl, rfl⟩
  · simp [main, setupHints, initResources]
  · simp [setupHints, createVertexShader, createFragmentShader, List.filter_append,
      Event.isDraw,
      checkShader_filter_eq_nil Event.isDraw D H.vertexShader
        (fun b => rfl) rfl (fun m => rfl),
      checkShader_filter_eq_nil Event.isDraw D H.fragmentShader
        (fun b => rfl) rfl (fun m => rfl),
      checkProgram_filter_eq_nil Event.isDraw D H.shaderProgram
        (fun b => rfl) rfl (fun m => rfl)]

/-- Claim C8: at shutdown every resource created during initialization —
the vertex-array object, the vertex buffer, the index buffer and the linked
program — is explicitly released, the four release calls come after the
render loop and before `glfwTerminate` tears the host surface down, and no
release call occurs while the render loop is running. -/
theorem c8_release_before_teardown (H : Handles) (D : Driver)
    (sched : Nat → IterInput) (fuel : Nat) :
    ∃ l₁,
      (main H { windowOk := true, driver := D, sched := sched } fuel).1
        = l₁ ++ (renderLoop H sched 0 fuel { shouldClose := false }).1
            ++ [Event.glDeleteVertexArrays 1 H.VAO,
                Event.glDeleteBuffers 1 H.VBO,
                Event.glDeleteBuffers 1 H.EBO,
                Event.glDeleteProgram H.shaderProgram,
                Event.glfwTerminate]
      ∧ l₁.filter Event.isRelease = []
      ∧ ((renderLoop H sched 0 fuel { shouldClose := false }).1).filter
          Event.isRelease = [] := by
  refine ⟨setupHints
    ++ [Event.glfwCreateWindow 800 600 "Aprendendo OpenGL/GLFW",
        Event.glfwSetFramebufferSizeCallback,
        Event.glfwMakeContextCurrent,
        Event.gladLoadGL]
    ++ initResources H D, ?_, ?_, ?_⟩
  · simp [main, releaseResources]
  · simp [setupHints, initResources, createVertexShader, createFragmentShader,
      List.filter_append, Event.isRelease,
      checkShader_filter_eq_nil Event.isRelease D H.vertexShader
        (fun b => rfl) rfl (fun m => rfl),
      checkShader_filter_eq_nil Event.isRelease D H.fragmentShader
        (fun b => rfl) rfl (fun m => rfl),
      checkProgram_filter_eq_nil Event.isRelease D H.shaderProgram
        (fun b => rfl) rfl (fun m => rfl)]
  · exact renderLoop_filter_eq_nil Event.isRelease loopBody_filter_release
      H sched 0 fuel { shouldClose := false }

/-- Claim C9: whenever the per-frame input check observes Escape pressed on
an iteration reached with the close flag unset, `processInput` sets the
window's close-request flag, the iteration leaves the flag set, the loop
performs exactly that one iteration and stops, and from the resulting state
the loop-continuation predicate is false: no further iteration runs for any
remaining fuel. -/
theorem c9_escape_sets_close_and_loop_exits (H : Handles) (sched : Nat → IterInput)
    (i fuel fuel2 : Nat) (s : WindowState)
    (hesc : (sched i).escPressed = true) (hs : s.shouldClose = false) :
    processInput true s = ({ shouldClose := true }, [Event.glfwSetWindowShouldClose true])
    ∧ ((loopBody H (sched i) s).1).shouldClose = true
    ∧ renderLoop H sched i (fuel + 1) s
        = ((loopBody H (sched i) s).2, (loopBody H (sched i) s).1)
    ∧ (renderLoop H sched (i + 1) fuel2 (loopBody H (sched i) s).1).1 = [] := by
  have hclose : ((loopBody H (sched i) s).1).shouldClose = true := by
    simp [loopBody, processInput, glfwPollEventsStep, hesc]
  refine ⟨rfl, hclose, ?_, ?_⟩
  · simp [renderLoop, hs, renderLoop_closed H sched (i + 1) fuel _ hclose]
  · simp [renderLoop_closed H sched (i + 1) fuel2 _ hclose]

/-- Witness for C9 at a concrete input: `Hc`, the constant Escape schedule,
iteration 0, fuel 3 and 5, initial state with the close flag unset. -/
theorem c9_escape_sets_close_and_loop_exits_witness :
    (escSchedC 0).escPressed = true
    ∧ ({ shouldClose := false } : WindowState).shouldClose = false
    ∧ (processInput true { shouldClose := false }
        = ({ shouldClose := true }, [Event.glfwSetWindowShouldClose true])
      ∧ ((loopBody Hc (escSchedC 0) { shouldClose := false }).1).shouldClose = true
      ∧ renderLoop Hc escSchedC 0 (3 + 1) { shouldClose := false }
          = ((loopBody Hc (escSchedC 0) { shouldClose := false }).2,
             (loopBody Hc (escSchedC 0) { shouldClose := false }).1)
      ∧ (renderLoop Hc escSchedC (0 + 1) 5
          (loopBody Hc (escSchedC 0) { shouldClose := false }).1).1 = []) :=
  ⟨rfl, rfl,
   c9_escape_sets_close_and_loop_exits Hc escSchedC 0 3 5 { shouldClose := false } rfl rfl⟩

/-- If Escape is first observed pressed at offset `N` of the schedule (and
no external close arrives earlier), the loop trace is some prefix holding no
close-request event, followed by the close request and the complete frame of
that final iteration — render step, buffer swap and event poll — and nothing
further, whatever fuel remains. -/
theorem renderLoop_first_escape (H : Handles) (sched : Nat → IterInput) :
    ∀ (N i fuel : Nat),
      (∀ k, k < N → (sched (i + k)).escPressed = false
        ∧ (sched (i + k)).externalClose = false) →
      (sched (i + N)).escPressed = true →
      N < fuel →
      ∃ l₁,
        (renderLoop H sched i fuel { shouldClose := false }).1
          = l₁ ++ [Event.glfwSetWindowShouldClose true]
              ++ renderFrame H ++ [Event.glfwSwapBuffers]
              ++ (glfwPollEventsStep (sched (i + N)) { shouldClose := true }).2
        ∧ l₁.countP Event.isSetClose = 0 := by
  intro N
  induction N with
  | zero =>
    intro i fuel hb hN hf
    obtain ⟨f, rfl⟩ : ∃ f, fuel = f + 1 := ⟨fuel - 1, by omega⟩
    have hesc : (sched i).escPressed = true := by simpa using hN
    have hclose : ((loopBody H (sched i) { shouldClose := false }).1).shouldClose = true := by
      simp [loopBody, processInput, glfwPollEventsStep, hesc]
    refine ⟨[], ?_, rfl⟩
    simp [renderLoop, loopBody, processInput, glfwPollEventsStep, hesc,
      renderLoop_closed H sched (i + 1) f { shouldClose := true } rfl]
  | succ N ih =>
    intro i fuel hb hN hf
    obtain ⟨f, rfl⟩ : ∃ f, fuel = f + 1 := ⟨fuel - 1, by omega⟩
    have h0 := hb 0 (Nat.succ_pos N)
    have hesc : (sched i).escPressed = false := by simpa using h0.1
    have hext : (sched i).externalClose = false := by simpa using h0.2
    have hstate : (loopBody H (sched i) { shouldClose := false }).1
        = { shouldClose := false } := by
      simp [loopBody, processInput, glfwPollEventsStep, hesc, hext]
    obtain ⟨l₁, hl, hcount⟩ := ih (i + 1) f
      (fun k hk => by
        have hk1 := hb (k + 1) (by omega)
        have harith : i + (k + 1) = i + 1 + k := by omega
        rw [harith] at hk1
        exact hk1)
      (by
        have harith : i + (N + 1) = i + 1 + N := by omega
        rw [harith] at hN
        exact hN)
      (by omega)
    have harith : i + 1 + N = i + (N + 1) := by omega
    rw [harith] at hl
    refine ⟨(loopBody H (sched i) { shouldClose := false }).2 ++ l₁, ?_, ?_⟩
    · have hunfold : (renderLoop H sched i (f + 1) { shouldClose := false }).1
          = (loopBody H (sched i) { shouldClose := false }).2
            ++ (renderLoop H sched (i + 1) f
                (loopBody H (sched i) { shouldClose := false }).1).1 := by
        simp [renderLoop]
      rw [hunfold, hstate, hl]
      simp
    · rw [List.countP_append, hcount,
        loopBody_countP_setClose_of_not_esc H (sched i) { shouldClose := false } hesc]

/-- Claim C10: an Escape press detected at the top of iteration N does not
abort that iteration — the close request is immediately followed in the
trace by that same iteration's complete frame (the full render step with its
single draw call, the buffer swap, the event poll) and by nothing else, the
prefix before the close request holds no close-request event, and the loop
exits at the next condition check: exactly one complete frame is rendered
and presented after the close request. -/
theorem c10_one_full_frame_after_escape (H : Handles) (sched : Nat → IterInput)
    (N fuel : Nat)
    (hb : ∀ k, k < N → (sched k).escPressed = false ∧ (sched k).externalClose = false)
    (hN : (sched N).escPressed = true)
    (hf : N < fuel) :
    ∃ l₁,
      (renderLoop H sched 0 fuel { shouldClose := false }).1
        = l₁ ++ [Event.glfwSetWindowShouldClose true]
            ++ renderFrame H ++ [Event.glfwSwapBuffers]
            ++ (glfwPollEventsStep (sched N) { shouldClose := true }).2
      ∧ l₁.countP Event.isSetClose = 0
      ∧ (renderFrame H).countP Event.isDraw = 1 := by
  obtain ⟨l₁, h1, h2⟩ := renderLoop_first_escape H sched N 0 fuel
    (fun k hk => by simpa using hb k hk) (by simpa using hN) hf
  exact ⟨l₁, by simpa using h1, h2, rfl⟩

/-- Witness for C10 at a concrete input: `Hc`, the schedule with Escape
first pressed at iteration 1, fuel 3. -/
theorem c10_one_full_frame_after_escape_witness :
    (∀ k, k < 1 → (schedOne k).escPressed = false ∧ (schedOne k).externalClose = false)
    ∧ (schedOne 1).escPressed = true
    ∧ 1 < 3
    ∧ ∃ l₁,
        (renderLoop Hc schedOne 0 3 { shouldClose := false }).1
          = l₁ ++ [Event.glfwSetWindowShouldClose true]
              ++ renderFrame Hc ++ [Event.glfwSwapBuffers]
              ++ (glfwPollEventsStep (schedOne 1) { shouldClose := true }).2
        ∧ l₁.countP Event.isSetClose = 0
        ∧ (renderFrame Hc).countP Event.isDraw = 1 :=
  ⟨by decide, by decide, by decide,
   c10_one_full_frame_after_escape Hc schedOne 1 3 (by decide) (by decide) (by decide)⟩

end GlfwDrawQuad
